import Mathlib

/-!
Verification of the sandbox-executor core (src/runtime/executor.py) and the
orchestration retry loop (src/main.py) of the Summer_school EDA pipeline.

Modelling conventions:
* Python `float` (NumPy float64) is modelled by `PFloat`: either NaN or an
  exact rational.  Rounding error is ignored; IEEE infinities do not arise in
  the modelled computations (every division is guarded exactly where the
  source's NaN checks are).  Square roots of rationals are irrational in
  general; where the source stores a square-root-valued statistic we use the
  integer-square-root approximation `ratSqrt` as a stand-in.  No claim in this
  development depends on the numeric value of any square-root-valued field;
  comparisons the claims do depend on (for example the z-score outlier rule)
  are expressed by exact square-free equivalents, noted at their definitions.
* Python strings are Lean `String`s; scanning works on `List Char`.  The
  regular expressions of the source use `\w`/`\s`/`\d`, modelled by their
  ASCII classes.
* Python dictionaries produced by untrusted code (the manifest) are modelled
  as structures with `Option` fields: `none` models an absent key.
-/

namespace EDA

/-- Model of an IEEE-754 double as used by the analysis code: NaN or an exact
rational (rounding ignored). -/
inductive PFloat where
  | nan : PFloat
  | val : ℚ → PFloat
deriving DecidableEq

/-- Model of `np.isnan`. -/
def PFloat.isNaN : PFloat → Bool
  | .nan => true
  | .val _ => false

/-- Model of `abs` on floats; `abs(nan)` is NaN. -/
def PFloat.abs : PFloat → PFloat
  | .nan => .nan
  | .val q => .val |q|

/-- Float comparison `x > c` against a rational constant; any comparison with
NaN is false, as in IEEE. -/
def PFloat.gtc : PFloat → ℚ → Bool
  | .nan, _ => false
  | .val q, c => decide (c < q)

/-- Integer-square-root approximation standing in for the real square root on
rationals (see the file header: no claim depends on its value). -/
def ratSqrt (q : ℚ) : ℚ := Rat.sqrt q

/-! ## String scanning utilities -/

/-- Python's `sub in s` substring test. -/
def isSubstringL (sub : List Char) : List Char → Bool
  | [] => sub.isEmpty
  | c :: cs => sub.isPrefixOf (c :: cs) || isSubstringL sub cs

/-- Python's `sub in s` on `String`s. -/
def containsSub (sub s : String) : Bool := isSubstringL sub.toList s.toList

/-- ASCII model of the regex class `\w`. -/
def isWordChar (c : Char) : Bool := c.isAlphanum || c == '_'

/-- ASCII model of the regex class `\s`. -/
def isSpaceChar (c : Char) : Bool :=
  c == ' ' || c == '\t' || c == '\n' || c == '\r' || c == '\x0b' || c == '\x0c'

/-- Attempt to match the regex `kw\s+(\w+)` at the start of `cs` (`kw` is a
literal keyword).  Returns the captured group and the remainder after the
match.  Greedy `\s+`/`\w+` take maximal runs; since a space character is not a
word character and vice versa, no shorter run can extend to a match, so
maximal runs are exactly the regex backtracking semantics here. -/
def matchKeywordAt (kw : List Char) (cs : List Char) : Option (List Char × List Char) :=
  if kw.isPrefixOf cs then
    let r0 := cs.drop kw.length
    let ws := r0.takeWhile isSpaceChar
    let r1 := r0.dropWhile isSpaceChar
    if ws.isEmpty then none
    else
      let w := r1.takeWhile isWordChar
      let r2 := r1.dropWhile isWordChar
      if w.isEmpty then none else some (w, r2)
  else none

/-- Model of `re.finditer(kw + r"\s+(\w+)", code)`: scan left to right; after a match,
resume after its end (matches do not overlap); otherwise advance one
character.  Structured with explicit fuel so that the kernel can evaluate it;
`fuel = length of the text` always suffices because every step consumes at
least one character. -/
def scanMatchesF (kw : List Char) : ℕ → List Char → List (List Char)
  | 0, _ => []
  | _, [] => []
  | fuel + 1, c :: cs =>
    match matchKeywordAt kw (c :: cs) with
    | some (w, rest) => w :: scanMatchesF kw fuel rest
    | none => scanMatchesF kw fuel cs

/-- All capture groups of `re.finditer(kw + r"\s+(\w+)", code)`. -/
def scanMatches (kw : List Char) (cs : List Char) : List (List Char) :=
  scanMatchesF kw cs.length cs

/-! ## Security Gate (`SandboxExecutor._is_code_safe`) -/

/-- The set `self.forbidden_modules` (modelled as a list, membership is
all that is ever asked of it). -/
def forbidden_modules : List String :=
  ["os", "sys", "subprocess", "socket", "http", "urllib", "requests",
   "pathlib", "shutil", "glob", "tempfile", "pickle", "shelve",
   "multiprocessing", "threading", "asyncio", "concurrent"]

/-- The set `self.forbidden_functions` (modelled as a list; the gate only ever takes an OR
over its members, so iteration order is irrelevant). -/
def forbidden_functions : List String :=
  ["open", "file", "input", "raw_input", "exec", "eval", "compile",
   "reload", "__import__"]

/-- Model of `match.group(1).split(".")[0]`: the prefix before the first dot (the
captured group is a `\w+` run, so in fact it never contains a dot). -/
def moduleOf (w : List Char) : String := String.mk (w.takeWhile (· ≠ '.'))

/-- Modules found by `re.finditer(r"import\s+(\w+)", code)`, mapped through
`group(1).split(".")[0]`. -/
def importedModules (code : String) : List String :=
  (scanMatches "import".toList code.toList).map moduleOf

/-- Modules found by `re.finditer(r"from\s+(\w+)", code)`, mapped through
`group(1).split(".")[0]`. -/
def fromModules (code : String) : List String :=
  (scanMatches "from".toList code.toList).map moduleOf

/-- Model of `SandboxExecutor._is_code_safe` (executor.py:154-181): four sequential
rejection checks, then `True`. -/
def is_code_safe (code : String) : Bool :=
  if (importedModules code).any (fun m => forbidden_modules.contains m) then false
  else if (fromModules code).any (fun m => forbidden_modules.contains m) then false
  else if forbidden_functions.any (fun f => containsSub (f ++ "(") code) then false
  else if ["open(", "file(", "pathlib", "os.", "sys."].any
      (fun pat => containsSub pat code) then false
  else true

/-! ## Dataset model

A pandas `DataFrame` is modelled as an ordered list of named, typed columns.
The executor only distinguishes three dtype groups (`select_dtypes` over
`np.number`, `object`/`category`, `datetime64`), so a column is one of three
kinds; a missing entry (`NaN`/`NaT`) is `none`. -/

/-- The calendar fields of a pandas timestamp that the source reads
(`dt.hour`, `dt.day`, `dt.month`); other fields are irrelevant to it. -/
structure Timestamp where
  year : Int
  month : ℕ
  day : ℕ
  hour : ℕ
deriving DecidableEq

/-- One column's data. -/
inductive ColData where
  | num : List (Option ℚ) → ColData
  | cat : List (Option String) → ColData
  | dt : List (Option Timestamp) → ColData
deriving DecidableEq

/-- A dataset: named columns in order. -/
structure DataFrame where
  cols : List (String × ColData)
deriving DecidableEq

/-- Model of `df.select_dtypes(include=[np.number]).columns` together with the data. -/
def numericCols (df : DataFrame) : List (String × List (Option ℚ)) :=
  df.cols.filterMap fun p =>
    match p.2 with
    | .num xs => some (p.1, xs)
    | _ => none

/-- Model of `df.select_dtypes(include=["object", "category"]).columns` with data. -/
def categoricalCols (df : DataFrame) : List (String × List (Option String)) :=
  df.cols.filterMap fun p =>
    match p.2 with
    | .cat xs => some (p.1, xs)
    | _ => none

/-- Model of `df.select_dtypes(include=["datetime64"]).columns` with data. -/
def datetimeCols (df : DataFrame) : List (String × List (Option Timestamp)) :=
  df.cols.filterMap fun p =>
    match p.2 with
    | .dt xs => some (p.1, xs)
    | _ => none

/-- Model of `series.dropna()`. -/
def dropna {α : Type} (xs : List (Option α)) : List α := xs.filterMap id

/-! ## Evidence Generator (`SandboxExecutor._generate_evidence`) -/

/-- Model of `series.mean()` of a nonempty series (on `[]` the value is never used). -/
def meanQ (xs : List ℚ) : ℚ := xs.sum / xs.length

/-- Model of `series.min()`. -/
def minQ : List ℚ → ℚ
  | [] => 0
  | x :: xs => xs.foldl min x

/-- Model of `series.max()`. -/
def maxQ : List ℚ → ℚ
  | [] => 0
  | x :: xs => xs.foldl max x

/-- Ascending sort, used for quantile interpolation. -/
def sortQ (xs : List ℚ) : List ℚ := List.insertionSort (fun a b => a ≤ b) xs

/-- Model of `series.quantile(q)`: linear interpolation on the sorted values at
position `q * (n - 1)` (the pandas/NumPy default). -/
def quantileQ (xs : List ℚ) (q : ℚ) : ℚ :=
  let sorted := sortQ xs
  let n := sorted.length
  if n = 0 then 0
  else
    let h : ℚ := q * ((n : ℚ) - 1)
    let i : ℕ := h.floor.toNat
    let lo := sorted.getD i 0
    let hi := sorted.getD (min (i + 1) (n - 1)) 0
    lo + (h - (i : ℚ)) * (hi - lo)

/-- The k-th central sample moment `m_k = (1/n) Σ (x - mean)^k` used by
`scipy.stats.skew` / `kurtosis` / `zscore` (all biased, i.e. divide by n). -/
def centralMoment (xs : List ℚ) (k : ℕ) : ℚ :=
  ((xs.map (fun x => (x - meanQ xs) ^ k)).sum) / xs.length

/-- The per-column numeric statistics of `evidence["numeric"]`
(executor.py:247-262).  `mean`, `min`, the quantiles and `max` of a nonempty
series are exact rationals and never NaN, so they are typed `ℚ`;
`std`/`skew`/`kurtosis` can be NaN and are typed `PFloat`. -/
structure NumericStats where
  count : ℕ
  mean : ℚ
  std : PFloat
  min : ℚ
  p01 : ℚ
  p25 : ℚ
  p50 : ℚ
  p75 : ℚ
  p95 : ℚ
  p99 : ℚ
  max : ℚ
  skew : PFloat
  kurtosis : PFloat
  n_outliers_z3 : ℕ
deriving DecidableEq

/-- Numeric statistics of a (dropna'd, nonempty) series.
* `std` is the sample standard deviation (`ddof=1`); pandas yields NaN for a
  single observation (0/0).
* `skew`/`kurtosis` are the biased scipy estimators `m3 / m2^(3/2)` and
  `m4 / m2^2 - 3`; scipy yields NaN when `m2 = 0`.
* `n_outliers_z3` counts `|zscore| > 3` with population std; the test
  `|x - μ| / sqrt(m2) > 3` is expressed by the exact square-free equivalent
  `(x - μ)^2 > 9 * m2`; when `m2 = 0` every z-score is NaN and no comparison
  holds, hence count 0. -/
def numericStats (s : List ℚ) : NumericStats :=
  let μ := meanQ s
  let m2 := centralMoment s 2
  let m3 := centralMoment s 3
  let m4 := centralMoment s 4
  { count := s.length
    mean := μ
    std :=
      if s.length ≤ 1 then .nan
      else .val (ratSqrt ((s.map (fun x => (x - μ) ^ 2)).sum / ((s.length : ℚ) - 1)))
    min := minQ s
    p01 := quantileQ s (1/100)
    p25 := quantileQ s (25/100)
    p50 := quantileQ s (50/100)
    p75 := quantileQ s (75/100)
    p95 := quantileQ s (95/100)
    p99 := quantileQ s (99/100)
    max := maxQ s
    skew := if m2 = 0 then .nan else .val (m3 / ratSqrt (m2 ^ 3))
    kurtosis := if m2 = 0 then .nan else .val (m4 / m2 ^ 2 - 3)
    n_outliers_z3 :=
      if m2 = 0 then 0
      else (s.filter (fun x => decide ((x - μ) ^ 2 > 9 * m2))).length }

/-- One row of `top_k` in `evidence["categorical"]`. -/
structure TopKEntry where
  value : String
  count : ℕ
  share : ℚ
deriving DecidableEq

/-- The per-column categorical statistics of `evidence["categorical"]`. -/
structure CatStats where
  cardinality : ℕ
  top_k : List TopKEntry
deriving DecidableEq

/-- Value counts in order of first appearance (the grouping step of
`series.value_counts()`). -/
def countsInOrder (xs : List String) : List (String × ℕ) :=
  xs.foldl
    (fun acc x =>
      if acc.any (fun p => p.1 == x) then
        acc.map (fun p => if p.1 == x then (p.1, p.2 + 1) else p)
      else acc ++ [(x, 1)])
    []

/-- Model of `series.value_counts()`: counts sorted by descending count.  pandas leaves
the relative order of equal counts unspecified; the model uses a stable sort
(ties stay in first-appearance order).  No claim depends on tie order. -/
def valueCounts (xs : List String) : List (String × ℕ) :=
  List.insertionSort (fun a b => b.2 ≤ a.2) (countsInOrder xs)

/-- Categorical statistics of a (dropna'd, nonempty) series
(executor.py:269-280): `nunique` and the 10 most frequent values with their
count and share of the non-missing total. -/
def catStats (s : List String) : CatStats :=
  { cardinality := s.dedup.length
    top_k :=
      ((valueCounts s).take 10).map fun p =>
        { value := p.1, count := p.2, share := (p.2 : ℚ) / (s.length : ℚ) } }

/-- The dict `evidence["timeseries"]` (both keys optional). -/
structure TimeseriesInfo where
  primary_ts_col : Option String
  resample : Option String
deriving DecidableEq

/-- The dict `evidence` as assembled by `_generate_evidence`.  The `relationships`
dict holds at most the single key `corr_pearson_top`; `none` models the key
being absent (it is set only when the dataset has at least two numeric
columns). -/
structure Evidence where
  numeric : List (String × NumericStats)
  categorical : List (String × CatStats)
  corr_pearson_top : Option (List (String × String × PFloat))
  timeseries : TimeseriesInfo
deriving DecidableEq

/-- Model of one `df[numeric_cols].corr()` entry for a pair of columns: Pearson
correlation over the rows where both values are present (pandas pairwise
complete observations, `min_periods=1`).  NaN when there are no common rows
or either column has zero variance on the common rows (0/0 in IEEE); by
Cauchy-Schwarz the numerator also vanishes there, so infinities cannot
arise.  The magnitude uses `ratSqrt` as the square-root stand-in (the sign
and NaN-ness are exact). -/
def pearson (xs ys : List (Option ℚ)) : PFloat :=
  let ps := (xs.zip ys).filterMap fun p =>
    match p.1, p.2 with
    | some a, some b => some (a, b)
    | _, _ => none
  let n := ps.length
  if n = 0 then .nan
  else
    let mx := (ps.map Prod.fst).sum / (n : ℚ)
    let my := (ps.map Prod.snd).sum / (n : ℚ)
    let sxx := (ps.map fun p => (p.1 - mx) ^ 2).sum
    let syy := (ps.map fun p => (p.2 - my) ^ 2).sum
    let sxy := (ps.map fun p => (p.1 - mx) * (p.2 - my)).sum
    if sxx = 0 ∨ syy = 0 then .nan
    else .val (sxy / ratSqrt (sxx * syy))

/-- The `i < j` double loop of executor.py:288-289 over the upper triangle,
in loop order. -/
def upperPairs {α : Type} : List α → List (α × α)
  | [] => []
  | x :: xs => (xs.map fun y => (x, y)) ++ upperPairs xs

/-- Sort key of `corr_pairs.sort(key=lambda x: abs(x[2]), reverse=True)`:
the absolute value of the correlation.  Only non-NaN entries reach the sort
(the NaN case is given an arbitrary key and is proved unreachable). -/
def corrKey (e : String × String × PFloat) : ℚ :=
  match e.2.2 with
  | .val q => |q|
  | .nan => 0

/-- Descending-key order used by the correlation sort. -/
def corrGE (a b : String × String × PFloat) : Prop := corrKey b ≤ corrKey a

instance : DecidableRel corrGE := fun a b => inferInstanceAs (Decidable (corrKey b ≤ corrKey a))

instance : IsTotal (String × String × PFloat) corrGE :=
  ⟨fun a b => (le_total (corrKey b) (corrKey a)).imp id id⟩

instance : IsTrans (String × String × PFloat) corrGE :=
  ⟨fun _ _ _ h1 h2 => le_trans h2 h1⟩

/-- The `corr_pearson_top` list (executor.py:282-297): collect the non-NaN
upper-triangle correlations in loop order, sort by descending absolute
value (Python's sort is stable; ties keep loop order), keep the first 10. -/
def corrPearsonTop (ncols : List (String × List (Option ℚ))) :
    List (String × String × PFloat) :=
  let corr_pairs := (upperPairs ncols).filterMap fun pq =>
    match pearson pq.1.2 pq.2.2 with
    | .nan => none
    | .val q => some (pq.1.1, pq.2.1, PFloat.val q)
  (List.insertionSort corrGE corr_pairs).take 10

/-! ## Manifest model

The executed code binds an arbitrary JSON-like object to the name
`manifest`; the executor reads it with `dict.get` everywhere, so every key
is optional.  A structure of `Option` fields models exactly the keys the
executor reads; `none` is an absent key.  (A manifest whose values have the
wrong dynamic type would make the original raise inside the `try` block and
is outside this typed model.) -/

/-- The `axis` sub-dict of a chart, keys as read by the linter. -/
structure Axis where
  x : Option String
  y : Option String
  log_x : Option Bool
  log_y : Option Bool
  x_ticks : Option Int
  y_ticks : Option Int
deriving DecidableEq

/-- One entry of `manifest["charts"]`, keys as read by the executor. -/
structure Chart where
  title : Option String
  axis : Option Axis
  columns_used : Option (List String)
  notes : Option String
  n_rows_plotted : Option Int
deriving DecidableEq

/-- The manifest object; `⟨none⟩` is the empty dict `{}` (no `charts` key). -/
structure Manifest where
  charts : Option (List Chart)
deriving DecidableEq

/-- The `used_columns` set (executor.py:236-240): union of
`chart["columns_used"]` over all charts (modelled as a list; only emptiness
and membership are ever asked of it). -/
def usedColumns (manifest : Manifest) : List String :=
  match manifest.charts with
  | none => []
  | some charts => charts.foldr (fun c acc => c.columns_used.getD [] ++ acc) []

/-- Python truthiness of a used/unused column test:
`col in used_columns or not used_columns`. -/
def colSelected (used : List String) (col : String) : Bool :=
  used.contains col || used.isEmpty

/-- Model of `SandboxExecutor._generate_evidence` (executor.py:224-316). -/
def generate_evidence (df : DataFrame) (manifest : Manifest) : Evidence :=
  let used := usedColumns manifest
  let ncols := numericCols df
  { numeric :=
      ncols.filterMap fun p =>
        if colSelected used p.1 then
          let s := dropna p.2
          if s.isEmpty then none else some (p.1, numericStats s)
        else none
    categorical :=
      (categoricalCols df).filterMap fun p =>
        if colSelected used p.1 then
          let s := dropna p.2
          if s.isEmpty then none else some (p.1, catStats s)
        else none
    corr_pearson_top :=
      if ncols.length > 1 then some (corrPearsonTop ncols) else none
    timeseries :=
      match datetimeCols df with
      | [] => { primary_ts_col := none, resample := none }
      | (name, xs) :: _ =>
        let ts := dropna xs
        { primary_ts_col := some name
          resample :=
            if ts.length > 30 then
              if (ts.map Timestamp.hour).dedup.length > 1 then some "H"
              else if (ts.map Timestamp.day).dedup.length > 1 then some "D"
              else if (ts.map Timestamp.month).dedup.length > 1 then some "M"
              else none
            else none } }

/-! ## Linter (`SandboxExecutor._run_linter`)

Message strings that interpolate a Python float with `str`/`:.2f` formatting
are rendered with Lean's `toString` on the exact rational instead; no claim
depends on a message string, only on levels and codes. -/

/-- A linter flag `{"level": .., "code": .., "msg": ..}`. -/
structure LinterFlag where
  level : String
  code : String
  msg : String
deriving DecidableEq

/-- Python truthiness of an optional string (`None` and `""` are falsy). -/
def strTruthy : Option String → Bool
  | none => false
  | some s => !s.isEmpty

/-- Digits-run to number. -/
def digitsToNat (ds : List Char) : ℕ :=
  ds.foldl (fun acc c => 10 * acc + (c.toNat - 48)) 0

/-- Model of `float` applied to `"ds.fs"`: the exact decimal value of integer digits `ds` and
fraction digits `fs`. -/
def decimalValue (ds fs : List Char) : ℚ :=
  (digitsToNat ds : ℚ) + (digitsToNat fs : ℚ) / ((10 : ℚ) ^ fs.length)

/-- Try to match `NA dropped: (\d+(?:\.\d+)?)%` at the start of `cs` and
return the captured number.  Greedy digit runs are maximal; a shorter run
would abut a digit, which can close neither the optional fraction (which
needs `.`) nor the match (which needs `%`), so maximal runs are exactly the
regex backtracking semantics here. -/
def parseNaAt (cs : List Char) : Option ℚ :=
  let pre := "NA dropped: ".toList
  if pre.isPrefixOf cs then
    let r0 := cs.drop pre.length
    let ds := r0.takeWhile Char.isDigit
    let r1 := r0.dropWhile Char.isDigit
    if ds.isEmpty then none
    else
      match r1 with
      | '%' :: _ => some (digitsToNat ds : ℚ)
      | '.' :: r2 =>
        let fs := r2.takeWhile Char.isDigit
        let r3 := r2.dropWhile Char.isDigit
        if fs.isEmpty then none
        else
          match r3 with
          | '%' :: _ => some (decimalValue ds fs)
          | _ => none
      | _ => none
  else none

/-- Model of `re.search(r"NA dropped: (\d+(?:\.\d+)?)%", notes)`: the number captured
at the leftmost position where the pattern matches. -/
def naSearch : List Char → Option ℚ
  | [] => none
  | c :: cs =>
    match parseNaAt (c :: cs) with
    | some q => some q
    | none => naSearch cs

/-- The parsed NA-drop percentage of a chart's notes (executor.py:379-383):
the `"NA dropped:" in notes` pre-check, then the regex search. -/
def naDropValue (notes : String) : Option ℚ :=
  if containsSub "NA dropped:" notes then naSearch notes.toList else none

/-- Linter rule 1, MISSING_LABELS (executor.py:329-336). -/
def ruleMissingLabels (chart : Chart) : List LinterFlag :=
  if !strTruthy (chart.axis.bind Axis.x) || !strTruthy chart.title then
    [{ level := "warn", code := "MISSING_LABELS", msg := "Missing axis labels or title" }]
  else []

/-- Linter rule 2, HIGH_CARDINALITY (executor.py:339-350): per used column,
silently skipped when the column is not in the categorical evidence. -/
def ruleHighCardinality (evidence : Evidence) (chart : Chart) : List LinterFlag :=
  match chart.columns_used with
  | none => []
  | some cols =>
    (cols.map fun col =>
      match evidence.categorical.lookup col with
      | some cs =>
        if cs.cardinality > 15 then
          [{ level := "warn", code := "HIGH_CARDINALITY",
             msg := "Column " ++ col ++ " has " ++ toString cs.cardinality
               ++ " unique values, consider top-k" }]
        else []
      | none => []).flatten

/-- Linter rule 3, HIGH_SKEW_NO_LOG (executor.py:353-364): per used column,
silently skipped when the column is not in the numeric evidence; a NaN skew
compares false. -/
def ruleHighSkew (evidence : Evidence) (chart : Chart) : List LinterFlag :=
  match chart.columns_used with
  | none => []
  | some cols =>
    (cols.map fun col =>
      match evidence.numeric.lookup col with
      | some ns =>
        if ns.skew.abs.gtc 2 && !((chart.axis.bind Axis.log_x).getD false) then
          [{ level := "warn", code := "HIGH_SKEW_NO_LOG",
             msg := "Column " ++ col ++ " has high skew, consider log scale" }]
        else []
      | none => []).flatten

/-- Linter rule 4, MANY_TICKS (executor.py:367-376). -/
def ruleManyTicks (chart : Chart) : List LinterFlag :=
  let xt := (chart.axis.bind Axis.x_ticks).getD 0
  let yt := (chart.axis.bind Axis.y_ticks).getD 0
  if xt > 20 || yt > 20 then
    [{ level := "warn", code := "MANY_TICKS",
       msg := "Too many ticks (" ++ toString xt ++ "x" ++ toString yt
         ++ "), consider thinning" }]
  else []

/-- Linter rule 5, HIGH_NA_DROP (executor.py:379-391): flag iff the notes
carry a parsable marker whose value exceeds 20. -/
def ruleNaDrop (chart : Chart) : List LinterFlag :=
  match naDropValue (chart.notes.getD "") with
  | some n =>
    if n > 20 then
      [{ level := "warn", code := "HIGH_NA_DROP",
         msg := "High NA drop: " ++ toString n ++ "%" }]
    else []
  | none => []

/-- Linter rule 6, EMPTY_PLOT (executor.py:394-402). -/
def ruleEmptyPlot (chart : Chart) : List LinterFlag :=
  let n := chart.n_rows_plotted.getD 0
  if n < 50 then
    [{ level := "warn", code := "EMPTY_PLOT",
       msg := "Plot has only " ++ toString n ++ " rows" }]
  else []

/-- All flags appended for one chart, in source rule order. -/
def lintChart (evidence : Evidence) (chart : Chart) : List LinterFlag :=
  ruleMissingLabels chart ++ ruleHighCardinality evidence chart
    ++ ruleHighSkew evidence chart ++ ruleManyTicks chart
    ++ ruleNaDrop chart ++ ruleEmptyPlot chart

/-- Model of `SandboxExecutor._run_linter` (executor.py:318-404): empty when the
manifest has no `charts` key, otherwise chart-by-chart rule flags in
insertion order. -/
def run_linter (manifest : Manifest) (evidence : Evidence) : List LinterFlag :=
  match manifest.charts with
  | none => []
  | some charts => (charts.map (lintChart evidence)).flatten

/-! ## Execution Engine and `SandboxExecutor.execute` -/

/-- The outcome of `exec(code, namespace)` under captured stdout: either
success, with the object the code bound to the well-known name `manifest`
(`namespace.get("manifest", {})`: the empty dict when unbound), or a raised
fault with the fault's type name, message, formatted traceback and whatever
stdout was produced before the fault.  The Python execution itself is not
re-implemented; `execute` below is parametric in this engine behaviour. -/
inductive ExecOutcome where
  | ok (stdout : String) (manifest : Manifest)
  | fault (stdout : String) (ename : String) (emsg : String) (tb : String)

/-- The dictionary returned by `SandboxExecutor.execute` (an `ExecutionResult`).
On the two failure paths the source returns the bare empty dict `{}` for
`evidence`; `none` models that, while `some ev` models generated evidence. -/
structure ExecutionResult where
  exec_ok : Bool
  stdout : String
  error : String
  manifest : Manifest
  evidence : Option Evidence
  linter_flags : List LinterFlag

/-- The result synthesized for unsafe code (executor.py:80-93). -/
def forbiddenResult : ExecutionResult :=
  { exec_ok := false
    stdout := ""
    error := "Code contains forbidden operations"
    manifest := ⟨none⟩
    evidence := none
    linter_flags :=
      [{ level := "error", code := "FORBIDDEN_CODE",
         msg := "Code contains forbidden operations" }] }

/-- Model of `SandboxExecutor.execute` (executor.py:64-152): gate, then run the code,
then evidence and linter on success, or the synthesized EXECUTION_ERROR
result on a fault (`error` is `f"{type(e).__name__}: {str(e)}\n{traceback}"`).
The engine is passed as the function `run`; the gate-rejection branch never
evaluates it. -/
def execute (run : String → ExecOutcome) (code : String) (df : DataFrame) :
    ExecutionResult :=
  if is_code_safe code then
    match run code with
    | .ok out manifest =>
      let evidence := generate_evidence df manifest
      { exec_ok := true
        stdout := out
        error := ""
        manifest := manifest
        evidence := some evidence
        linter_flags := run_linter manifest evidence }
    | .fault out ename emsg tb =>
      { exec_ok := false
        stdout := out
        error := ename ++ ": " ++ emsg ++ "\n" ++ tb
        manifest := ⟨none⟩
        evidence := none
        linter_flags := [{ level := "error", code := "EXECUTION_ERROR", msg := emsg }] }
  else forbiddenResult

/-! ## Orchestration Loop (`EDAOrchestrator.run_eda`, main.py:163-283)

The per-item code/execute/critique/retry segment, with the LLM-backed
collaborators abstracted as oracles: the CodeWriter and the Critic are
indexed by their call count (an LLM call can answer differently each time),
the executor by the code string.  Only the slice of the execution result the
loop reads (`exec_ok`, `error`) is carried.  Python local variables that the
segment reads before assigning are modelled explicitly: `run_eda` first reads
its local `retry_count` at main.py:217 (the `save_execution_result` keyword
argument) and first assigns it at main.py:224, so on the first plan item the
read raises `UnboundLocalError`, modelled as `Except.error`. -/

/-- The slice of an ExecutionResult the retry loop reads. -/
structure ExecSlice where
  exec_ok : Bool
  error : String
deriving DecidableEq

/-- A critique `{status, fix_patch, ...}`. -/
structure CriticOut where
  status : String
  fix_patch : Option String
deriving DecidableEq

/-- The oracles of one plan item's processing. -/
structure Orchestra where
  /-- Oracle for `self.coder.write_code(...)["python"]` by call count. -/
  coder : ℕ → String
  /-- Oracle for `self.executor.execute(code, df, schema)`, projected to the read slice. -/
  execF : String → ExecSlice
  /-- Oracle for `self.critic.critique(...)` by call count. -/
  critic : ℕ → CriticOut
  /-- whether `import autopep8` succeeds inside the indentation sub-path. -/
  autopep8Avail : Bool
  /-- Oracle for `autopep8.fix_code`. -/
  autopep8F : String → String

/-- The loop locals of main.py:221-283. -/
structure LoopState where
  code : String
  res : ExecSlice
  coderCalls : ℕ
  criticCalls : ℕ
  retry_count : ℕ
  success : Bool
  highlights : ℕ
deriving DecidableEq

/-- Model of `"IndentationError" in error_msg or "unexpected indent" in error_msg`. -/
def isIndentError (e : String) : Bool :=
  containsSub "IndentationError" e || containsSub "unexpected indent" e

/-- The `while retry_count < max_retries and not success` loop
(main.py:227-280), `max_retries = 3`.  Written with explicit fuel so the
kernel can evaluate it; every iteration either sets `success` (the next
condition check exits), increments `retry_count` (bounded by 3), or breaks,
so 5 units of fuel always reach the loop's exit. -/
def itemLoop (o : Orchestra) : ℕ → LoopState → LoopState
  | 0, s => s
  | fuel + 1, s =>
    if s.retry_count < 3 && !s.success then
      if s.res.exec_ok then
        itemLoop o fuel { s with success := true, highlights := s.highlights + 1 }
      else if isIndentError s.res.error && o.autopep8Avail then
        itemLoop o fuel
          { s with res := o.execF (o.autopep8F s.code),
                   retry_count := s.retry_count + 1 }
      else
        let c := o.critic s.criticCalls
        if c.status == "fix" then
          let newCode := o.coder s.coderCalls
          itemLoop o fuel
            { s with code := newCode, res := o.execF newCode,
                     coderCalls := s.coderCalls + 1,
                     criticCalls := s.criticCalls + 1,
                     retry_count := s.retry_count + 1 }
        else { s with criticCalls := s.criticCalls + 1 }
    else s

/-- One plan item's processing (main.py:163-283).  `retryVar` is the state of
the local `retry_count` when the item starts (`none` = not yet assigned,
which is the case for the first item of every run).  Steps in source order:
generate code, execute, critique, optionally re-execute with the textual
`fix_patch` appended (when the critique is a "fix" with a truthy patch), save
to the history DB — whose `retry_count=retry_count` argument raises
`UnboundLocalError` when the local is unbound — then the bounded retry
loop. -/
def processItem (o : Orchestra) (retryVar : Option ℕ) : Except String LoopState :=
  let code0 := o.coder 0
  let e0 := o.execF code0
  let c0 := o.critic 0
  let e1 :=
    if c0.status == "fix" && strTruthy c0.fix_patch then
      o.execF (code0 ++ "\n" ++ c0.fix_patch.getD "")
    else e0
  match retryVar with
  | none =>
    .error "UnboundLocalError: local variable 'retry_count' referenced before assignment"
  | some _ =>
    .ok (itemLoop o 5
      { code := code0, res := e1, coderCalls := 1, criticCalls := 1,
        retry_count := 0, success := false, highlights := 0 })

/-- The first plan item of a run: `retry_count` is still unbound. -/
def processFirstItem (o : Orchestra) : Except String LoopState :=
  processItem o none

/-! ## Theorems -/

/-- The sequential early-return checks of `_is_code_safe` are the negation of
the disjunction of their conditions. -/
theorem is_code_safe_eq (code : String) :
    is_code_safe code =
      !((importedModules code).any (fun m => forbidden_modules.contains m) ||
        (fromModules code).any (fun m => forbidden_modules.contains m) ||
        forbidden_functions.any (fun f => containsSub (f ++ "(") code) ||
        ["open(", "file(", "pathlib", "os.", "sys."].any
          (fun pat => containsSub pat code)) := by
  unfold is_code_safe
  cases h1 : (importedModules code).any (fun m => forbidden_modules.contains m) <;>
  cases h2 : (fromModules code).any (fun m => forbidden_modules.contains m) <;>
  cases h3 : forbidden_functions.any (fun f => containsSub (f ++ "(") code) <;>
  cases h4 : ["open(", "file(", "pathlib", "os.", "sys."].any
    (fun pat => containsSub pat code) <;>
  rfl

/-- C1: for every code string in which the denylist import scan (either of
the two supported syntaxes, `import X` or `from X import ...`, as matched by
the source's regexes) finds a forbidden module, `is_safe` returns false, and
`execute` returns the synthesized rejection result — `exec_ok = false`, an
error describing the violation, empty manifest and evidence, and exactly one
error-level FORBIDDEN_CODE flag — for every possible Execution Engine `run`,
i.e. without ever invoking the engine on that code. -/
theorem C1_forbidden_import_rejected (code : String) (df : DataFrame)
    (run : String → ExecOutcome)
    (h : ((importedModules code ++ fromModules code).any
      (fun m => forbidden_modules.contains m)) = true) :
    is_code_safe code = false ∧ execute run code df = forbiddenResult := by
  have hs : is_code_safe code = false := by
    rw [List.any_append, Bool.or_eq_true] at h
    rw [is_code_safe_eq]
    rcases h with h1 | h2
    · simp only [h1, Bool.true_or, Bool.not_true]
    · simp only [h2, Bool.true_or, Bool.or_true, Bool.not_true]
  refine ⟨hs, ?_⟩
  unfold execute
  simp [hs]

/-- Witness for C1 at the concrete input `"import os\nx = 1"`. -/
theorem C1_witness :
    ((importedModules "import os\nx = 1" ++ fromModules "import os\nx = 1").any
      (fun m => forbidden_modules.contains m)) = true ∧
    (is_code_safe "import os\nx = 1" = false ∧
      execute (fun _ => .ok "" ⟨none⟩) "import os\nx = 1" ⟨[]⟩ = forbiddenResult) :=
  ⟨by decide, C1_forbidden_import_rejected "import os\nx = 1" ⟨[]⟩
    (fun _ => .ok "" ⟨none⟩) (by decide)⟩

/-- C10: the Security Gate's textual pattern check rejects by raw substring,
regardless of syntactic context: every code string containing the substring
`"os."`, `"sys."` or `"open("` anywhere (hence also inside longer
identifiers such as `"np.cos."` or `"reopen("`, in string literals or in
comments) makes `is_safe` return false. -/
theorem C10_textual_patterns_reject (code : String)
    (h : containsSub "os." code = true ∨ containsSub "sys." code = true ∨
      containsSub "open(" code = true) :
    is_code_safe code = false := by
  rw [is_code_safe_eq]
  have h4 : (["open(", "file(", "pathlib", "os.", "sys."].any
      (fun pat => containsSub pat code)) = true := by
    rcases h with h | h | h
    · exact List.any_eq_true.mpr ⟨"os.", by decide, h⟩
    · exact List.any_eq_true.mpr ⟨"sys.", by decide, h⟩
    · exact List.any_eq_true.mpr ⟨"open(", by decide, h⟩
  simp only [h4, Bool.or_true, Bool.not_true]

/-- Witness for C10 at `"y = np.cos.__doc__"` (no forbidden capability is
used; the substring `"os."` occurs inside `np.cos.`). -/
theorem C10_witness :
    containsSub "os." "y = np.cos.__doc__" = true ∧
    is_code_safe "y = np.cos.__doc__" = false :=
  ⟨by decide, C10_textual_patterns_reject "y = np.cos.__doc__" (Or.inl (by decide))⟩

/-- C2: for every safe code string whose execution raises a fault, `execute`
catches the fault and returns — rather than propagates — an ExecutionResult
with `exec_ok = false`, `error` formatted from the fault kind, message and
stack trace, `stdout` equal to whatever was printed before the fault, empty
manifest and evidence, and exactly the single error-level EXECUTION_ERROR
flag. -/
theorem C2_fault_isolated (run : String → ExecOutcome) (code : String)
    (df : DataFrame) (out ename emsg tb : String)
    (hsafe : is_code_safe code = true)
    (hrun : run code = .fault out ename emsg tb) :
    execute run code df =
      { exec_ok := false
        stdout := out
        error := ename ++ ": " ++ emsg ++ "\n" ++ tb
        manifest := ⟨none⟩
        evidence := none
        linter_flags := [{ level := "error", code := "EXECUTION_ERROR", msg := emsg }] } := by
  unfold execute
  simp [hsafe, hrun]

/-- Witness for C2: a concrete safe program and an engine raising
`ValueError: boom` after printing `"partial"`. -/
theorem C2_witness :
    is_code_safe "x = 1" = true ∧
    execute (fun _ => .fault "partial" "ValueError" "boom" "Traceback") "x = 1" ⟨[]⟩ =
      { exec_ok := false
        stdout := "partial"
        error := "ValueError" ++ ": " ++ "boom" ++ "\n" ++ "Traceback"
        manifest := ⟨none⟩
        evidence := none
        linter_flags := [{ level := "error", code := "EXECUTION_ERROR", msg := "boom" }] } :=
  ⟨by decide, C2_fault_isolated (fun _ => .fault "partial" "ValueError" "boom" "Traceback")
    "x = 1" ⟨[]⟩ "partial" "ValueError" "boom" "Traceback" (by decide) rfl⟩

/-- C5: for every safe code string that executes without fault and does not
bind the well-known manifest name (so the engine extracts the empty object),
the returned ExecutionResult succeeds with `manifest = {}` — a valid state,
not an error — and `linter_flags = []`: the linter is a total no-op on a
manifest with no `charts` key. -/
theorem C5_no_manifest_ok (run : String → ExecOutcome) (code : String)
    (df : DataFrame) (out : String)
    (hsafe : is_code_safe code = true)
    (hrun : run code = .ok out ⟨none⟩) :
    (execute run code df).exec_ok = true ∧
    (execute run code df).manifest = ⟨none⟩ ∧
    (execute run code df).linter_flags = [] := by
  unfold execute
  simp [hsafe, hrun, run_linter]

/-- Witness for C5 on a one-column dataset. -/
theorem C5_witness :
    is_code_safe "x = 1" = true ∧
    ((execute (fun _ => .ok "done" ⟨none⟩) "x = 1" ⟨[("a", .num [some 1])]⟩).exec_ok = true ∧
      (execute (fun _ => .ok "done" ⟨none⟩) "x = 1" ⟨[("a", .num [some 1])]⟩).manifest = ⟨none⟩ ∧
      (execute (fun _ => .ok "done" ⟨none⟩) "x = 1" ⟨[("a", .num [some 1])]⟩).linter_flags = []) :=
  ⟨by decide, C5_no_manifest_ok (fun _ => .ok "done" ⟨none⟩) "x = 1"
    ⟨[("a", .num [some 1])]⟩ "done" (by decide) rfl⟩

/-! ### Linter claims -/

/-- Helper: a flattened map has no element satisfying `p` when no block
does. -/
theorem flatten_any_false {α β : Type} (p : β → Bool) (g : α → List β)
    (l : List α) (h : ∀ x, (g x).any p = false) :
    ((l.map g).flatten).any p = false := by
  induction l with
  | nil => rfl
  | cons x xs ih => simp [List.any_append, h, ih]

/-- Helper: a flattened map of empty blocks is empty. -/
theorem flatten_eq_nil {α β : Type} (g : α → List β) (l : List α)
    (h : ∀ x ∈ l, g x = []) : (l.map g).flatten = [] := by
  induction l with
  | nil => rfl
  | cons x xs ih =>
    simp only [List.map_cons, List.flatten_cons, h x (by simp)]
    exact ih fun y hy => h y (by simp [hy])

/-- Rule 1 only ever emits MISSING_LABELS. -/
theorem ruleMissingLabels_no_na (c : Chart) :
    (ruleMissingLabels c).any (fun f => f.code == "HIGH_NA_DROP") = false := by
  unfold ruleMissingLabels
  split <;> rfl

/-- Rule 2 only ever emits HIGH_CARDINALITY. -/
theorem ruleHighCardinality_no_na (ev : Evidence) (c : Chart) :
    (ruleHighCardinality ev c).any (fun f => f.code == "HIGH_NA_DROP") = false := by
  unfold ruleHighCardinality
  cases c.columns_used with
  | none => rfl
  | some cols =>
    refine flatten_any_false _ _ _ fun col => ?_
    cases ev.categorical.lookup col with
    | none => rfl
    | some cs =>
      simp only
      split <;> rfl

/-- Rule 3 only ever emits HIGH_SKEW_NO_LOG. -/
theorem ruleHighSkew_no_na (ev : Evidence) (c : Chart) :
    (ruleHighSkew ev c).any (fun f => f.code == "HIGH_NA_DROP") = false := by
  unfold ruleHighSkew
  cases c.columns_used with
  | none => rfl
  | some cols =>
    refine flatten_any_false _ _ _ fun col => ?_
    cases ev.numeric.lookup col with
    | none => rfl
    | some ns =>
      simp only
      split <;> rfl

/-- Rule 4 only ever emits MANY_TICKS. -/
theorem ruleManyTicks_no_na (c : Chart) :
    (ruleManyTicks c).any (fun f => f.code == "HIGH_NA_DROP") = false := by
  unfold ruleManyTicks
  dsimp only
  split <;> rfl

/-- Rule 6 only ever emits EMPTY_PLOT. -/
theorem ruleEmptyPlot_no_na (c : Chart) :
    (ruleEmptyPlot c).any (fun f => f.code == "HIGH_NA_DROP") = false := by
  unfold ruleEmptyPlot
  dsimp only
  split <;> rfl

/-- C6: for every chart whose notes carry a parsable `NA dropped: N%` marker
(and any evidence), the linter emits a HIGH_NA_DROP flag for the chart if and
only if N > 20; in particular `NA dropped: 20.0%` (exactly 20) does not
trigger it — witnessed below. -/
theorem C6_na_drop_threshold (evidence : Evidence) (chart : Chart) (n : ℚ)
    (h : naDropValue (chart.notes.getD "") = some n) :
    ((lintChart evidence chart).any (fun f => f.code == "HIGH_NA_DROP") = true)
      ↔ n > 20 := by
  unfold lintChart
  simp only [List.any_append, ruleMissingLabels_no_na, ruleHighCardinality_no_na,
    ruleHighSkew_no_na, ruleManyTicks_no_na, ruleEmptyPlot_no_na,
    Bool.false_or, Bool.or_false]
  unfold ruleNaDrop
  rw [h]
  by_cases hn : n > 20
  · simp [hn]
  · simp [hn]

/-- Witness for C6 at the boundary: notes `"NA dropped: 20.0%"` parse to
exactly 20 and produce no HIGH_NA_DROP flag. -/
theorem C6_witness :
    naDropValue (((Chart.mk (some "t") none none (some "NA dropped: 20.0%")
        (some 100)).notes).getD "") = some 20 ∧
    ((lintChart ⟨[], [], none, ⟨none, none⟩⟩
        (Chart.mk (some "t") none none (some "NA dropped: 20.0%") (some 100))).any
      (fun f => f.code == "HIGH_NA_DROP")) = false := by
  constructor
  · with_unfolding_all decide
  · have h := C6_na_drop_threshold ⟨[], [], none, ⟨none, none⟩⟩
      (Chart.mk (some "t") none none (some "NA dropped: 20.0%") (some 100)) 20
      (by with_unfolding_all decide)
    cases hb : ((lintChart ⟨[], [], none, ⟨none, none⟩⟩
        (Chart.mk (some "t") none none (some "NA dropped: 20.0%") (some 100))).any
      (fun f => f.code == "HIGH_NA_DROP"))
    · rfl
    · exact absurd (h.mp hb) (by norm_num)

/-- C7: the linter never emits a flag about a column that is absent from the
evidence: for a chart all of whose `columns_used` are unknown to the
evidence, the two column-keyed rules emit nothing (the unknown columns are
silently skipped, with no possibility of a crash — the rules are total), and
the chart's flags are exactly those of the column-independent rules. -/
theorem C7_unknown_columns_skipped (ev : Evidence) (chart : Chart)
    (h : ∀ col ∈ chart.columns_used.getD [],
      ev.numeric.lookup col = none ∧ ev.categorical.lookup col = none) :
    ruleHighCardinality ev chart = [] ∧ ruleHighSkew ev chart = [] ∧
    lintChart ev chart =
      ruleMissingLabels chart ++ ruleManyTicks chart
        ++ ruleNaDrop chart ++ ruleEmptyPlot chart := by
  have h2 : ruleHighCardinality ev chart = [] := by
    unfold ruleHighCardinality
    cases hc : chart.columns_used with
    | none => rfl
    | some cols =>
      refine flatten_eq_nil _ _ fun col hcol => ?_
      have := (h col (by simp [hc, hcol])).2
      simp [this]
  have h3 : ruleHighSkew ev chart = [] := by
    unfold ruleHighSkew
    cases hc : chart.columns_used with
    | none => rfl
    | some cols =>
      refine flatten_eq_nil _ _ fun col hcol => ?_
      have := (h col (by simp [hc, hcol])).1
      simp [this]
  refine ⟨h2, h3, ?_⟩
  unfold lintChart
  rw [h2, h3]
  simp

/-- Witness for C7: a chart using only the unknown column `"ghost"` against
empty evidence. -/
theorem C7_witness :
    (∀ col ∈ ((Chart.mk none none (some ["ghost"]) none none).columns_used).getD [],
      (⟨[], [], none, ⟨none, none⟩⟩ : Evidence).numeric.lookup col = none ∧
      (⟨[], [], none, ⟨none, none⟩⟩ : Evidence).categorical.lookup col = none) ∧
    ruleHighCardinality ⟨[], [], none, ⟨none, none⟩⟩
      (Chart.mk none none (some ["ghost"]) none none) = [] ∧
    ruleHighSkew ⟨[], [], none, ⟨none, none⟩⟩
      (Chart.mk none none (some ["ghost"]) none none) = [] := by
  refine ⟨by decide, ?_⟩
  have h := C7_unknown_columns_skipped ⟨[], [], none, ⟨none, none⟩⟩
    (Chart.mk none none (some ["ghost"]) none none) (by decide)
  exact ⟨h.1, h.2.1⟩

/-! ### Evidence Generator claims -/

/-- C3 counterexample: the claim as stated fails on a dataset with an
all-missing numeric column.  With the empty manifest (no used-column
restriction), the dataset `{"a": numeric [NaN]}` has the numeric column `"a"`
but the generated evidence computes no statistics for it: the source skips a
column whose dropna'd series is empty. -/
theorem C3_counterexample :
    usedColumns ⟨none⟩ = [] ∧
    "a" ∈ (numericCols ⟨[("a", ColData.num [none])]⟩).map Prod.fst ∧
    "a" ∉ ((generate_evidence ⟨[("a", ColData.num [none])]⟩ ⟨none⟩).numeric).map
      Prod.fst :=
  ⟨rfl, by decide, by with_unfolding_all decide⟩

/-- C3 (amended): for every dataset and every manifest whose
`charts[*].columns_used` are all empty or absent (so the used-column set is
empty, including the empty-manifest case), the Evidence Generator computes
statistics for every numeric and every categorical column that has at least
one non-missing value, with no restriction to used columns. -/
theorem C3_all_columns_when_unrestricted (df : DataFrame) (manifest : Manifest)
    (hused : usedColumns manifest = []) :
    (∀ p ∈ numericCols df, dropna p.2 ≠ [] →
      p.1 ∈ ((generate_evidence df manifest).numeric).map Prod.fst) ∧
    (∀ p ∈ categoricalCols df, dropna p.2 ≠ [] →
      p.1 ∈ ((generate_evidence df manifest).categorical).map Prod.fst) := by
  constructor
  · intro p hp hne
    unfold generate_evidence
    dsimp only
    refine List.mem_map.mpr ⟨(p.1, numericStats (dropna p.2)), ?_, rfl⟩
    refine List.mem_filterMap.mpr ⟨p, hp, ?_⟩
    have hsel : colSelected (usedColumns manifest) p.1 = true := by
      simp [colSelected, hused]
    have hemp : (dropna p.2).isEmpty = false := by
      simpa [List.isEmpty_iff] using hne
    simp [hsel, hemp]
  · intro p hp hne
    unfold generate_evidence
    dsimp only
    refine List.mem_map.mpr ⟨(p.1, catStats (dropna p.2)), ?_, rfl⟩
    refine List.mem_filterMap.mpr ⟨p, hp, ?_⟩
    have hsel : colSelected (usedColumns manifest) p.1 = true := by
      simp [colSelected, hused]
    have hemp : (dropna p.2).isEmpty = false := by
      simpa [List.isEmpty_iff] using hne
    simp [hsel, hemp]

/-- Witness for the amended C3 on a two-column dataset with the empty
manifest. -/
theorem C3_witness :
    usedColumns ⟨none⟩ = [] ∧
    "a" ∈ ((generate_evidence ⟨[("a", ColData.num [some 1]),
        ("b", ColData.cat [some "x"])]⟩ ⟨none⟩).numeric).map Prod.fst ∧
    "b" ∈ ((generate_evidence ⟨[("a", ColData.num [some 1]),
        ("b", ColData.cat [some "x"])]⟩ ⟨none⟩).categorical).map Prod.fst := by
  refine ⟨rfl, ?_, ?_⟩
  · exact (C3_all_columns_when_unrestricted
      ⟨[("a", ColData.num [some 1]), ("b", ColData.cat [some "x"])]⟩ ⟨none⟩ rfl).1
      ("a", [some 1]) (by decide) (by decide)
  · exact (C3_all_columns_when_unrestricted
      ⟨[("a", ColData.num [some 1]), ("b", ColData.cat [some "x"])]⟩ ⟨none⟩ rfl).2
      ("b", [some "x"]) (by decide) (by decide)

/-- The correlation list is never longer than 10. -/
theorem corrPearsonTop_length (ncols : List (String × List (Option ℚ))) :
    (corrPearsonTop ncols).length ≤ 10 := by
  unfold corrPearsonTop
  simp [min_le_left]

/-- The correlation list is sorted by descending absolute correlation
(`corrKey`). -/
theorem corrPearsonTop_sorted (ncols : List (String × List (Option ℚ))) :
    (corrPearsonTop ncols).Pairwise corrGE := by
  unfold corrPearsonTop
  exact List.Pairwise.sublist (List.take_sublist _ _)
    (List.sorted_insertionSort corrGE _)

/-- No NaN correlation survives into the list. -/
theorem corrPearsonTop_no_nan (ncols : List (String × List (Option ℚ))) :
    ∀ e ∈ corrPearsonTop ncols, e.2.2 ≠ PFloat.nan := by
  unfold corrPearsonTop
  intro e he
  have he2 : e ∈ List.insertionSort corrGE ((upperPairs ncols).filterMap fun pq =>
      match pearson pq.1.2 pq.2.2 with
      | .nan => none
      | .val q => some (pq.1.1, pq.2.1, PFloat.val q)) :=
    (List.take_sublist _ _).subset he
  rw [List.mem_insertionSort] at he2
  obtain ⟨pq, _, heq⟩ := List.mem_filterMap.mp he2
  revert heq
  cases pearson pq.1.2 pq.2.2 with
  | nan => intro heq; cases heq
  | val q =>
    intro heq
    cases heq
    intro hc
    cases hc

/-- C4: whenever the evidence carries a `corr_pearson_top` list, that list is
sorted by descending absolute correlation (for the non-NaN values that
populate it, `corrKey` is exactly the absolute correlation), has at most 10
entries, and contains no NaN entry. -/
theorem C4_corr_top (df : DataFrame) (manifest : Manifest)
    (l : List (String × String × PFloat))
    (h : (generate_evidence df manifest).corr_pearson_top = some l) :
    l.length ≤ 10 ∧ l.Pairwise corrGE ∧ ∀ e ∈ l, e.2.2 ≠ PFloat.nan := by
  unfold generate_evidence at h
  dsimp only at h
  by_cases hn : (numericCols df).length > 1
  · rw [if_pos hn] at h
    obtain rfl : corrPearsonTop (numericCols df) = l := Option.some.inj h
    exact ⟨corrPearsonTop_length _, corrPearsonTop_sorted _, corrPearsonTop_no_nan _⟩
  · rw [if_neg hn] at h
    cases h

/-- Witness for C4 on a dataset with two perfectly correlated numeric
columns. -/
theorem C4_witness :
    (generate_evidence ⟨[("a", ColData.num [some 0, some 1, some 2]),
        ("b", ColData.num [some 0, some 2, some 4])]⟩ ⟨none⟩).corr_pearson_top =
      some [("a", "b", PFloat.val 1)] ∧
    ([("a", "b", PFloat.val 1)].length ≤ 10 ∧
      List.Pairwise corrGE [("a", "b", PFloat.val 1)] ∧
      ∀ e ∈ [("a", "b", PFloat.val 1)], e.2.2 ≠ PFloat.nan) := by
  have h : (generate_evidence ⟨[("a", ColData.num [some 0, some 1, some 2]),
      ("b", ColData.num [some 0, some 2, some 4])]⟩ ⟨none⟩).corr_pearson_top =
      some [("a", "b", PFloat.val 1)] := by
    with_unfolding_all decide
  exact ⟨h, C4_corr_top _ ⟨none⟩ _ h⟩

/-- C8 counterexample: a dataset whose only datetime column holds 31
identical non-missing timestamps has more than 30 non-missing timestamps
with a single distinct hour, day and month.  The claim's trailing "else
monthly" prescribes a monthly granularity, but the code sets no `resample`
key at all (its monthly branch also requires more than one distinct
month). -/
theorem C8_counterexample :
    (dropna (List.replicate 31 (some (Timestamp.mk 2020 1 1 0)))).length > 30 ∧
    (generate_evidence ⟨[("t", ColData.dt (List.replicate 31
        (some (Timestamp.mk 2020 1 1 0))))]⟩ ⟨none⟩).timeseries.primary_ts_col =
      some "t" ∧
    (generate_evidence ⟨[("t", ColData.dt (List.replicate 31
        (some (Timestamp.mk 2020 1 1 0))))]⟩ ⟨none⟩).timeseries.resample = none :=
  ⟨by decide, by with_unfolding_all decide, by with_unfolding_all decide⟩

/-- C8 (amended): for every dataset containing at least one datetime column,
the Evidence Generator picks the first datetime column as `primary_ts_col`,
and sets a resample granularity only when there are more than 30 non-missing
timestamps, choosing hourly if multiple distinct hours appear, else daily if
multiple distinct days (of month) appear, else monthly if multiple distinct
months appear — and otherwise sets no granularity at all. -/
theorem C8_timeseries (df : DataFrame) (manifest : Manifest) (name : String)
    (xs : List (Option Timestamp)) (rest : List (String × List (Option Timestamp)))
    (h : datetimeCols df = (name, xs) :: rest) :
    (generate_evidence df manifest).timeseries.primary_ts_col = some name ∧
    ((generate_evidence df manifest).timeseries.resample ≠ none →
      (dropna xs).length > 30) ∧
    ((dropna xs).length > 30 →
      (generate_evidence df manifest).timeseries.resample =
        (if ((dropna xs).map Timestamp.hour).dedup.length > 1 then some "H"
         else if ((dropna xs).map Timestamp.day).dedup.length > 1 then some "D"
         else if ((dropna xs).map Timestamp.month).dedup.length > 1 then some "M"
         else none)) := by
  unfold generate_evidence
  rw [h]
  dsimp only
  refine ⟨rfl, ?_, ?_⟩
  · intro hne
    by_contra hlen
    rw [if_neg hlen] at hne
    exact hne rfl
  · intro hlen
    rw [if_pos hlen]

/-- The timestamp column of the C8 witness: 31 non-missing timestamps over
two days, one hour-of-day, one month. -/
def tsTwoDays : List (Option Timestamp) :=
  List.replicate 16 (some (Timestamp.mk 2020 1 1 0)) ++
    List.replicate 15 (some (Timestamp.mk 2020 1 2 0))

/-- Witness for the amended C8: 31 timestamps spanning two days within one
hour-of-day and one month yield a daily granularity. -/
theorem C8_witness :
    datetimeCols ⟨[("t", ColData.dt tsTwoDays)]⟩ = [("t", tsTwoDays)] ∧
    (generate_evidence ⟨[("t", ColData.dt tsTwoDays)]⟩
      ⟨none⟩).timeseries.primary_ts_col = some "t" ∧
    (generate_evidence ⟨[("t", ColData.dt tsTwoDays)]⟩
      ⟨none⟩).timeseries.resample = some "D" := by
  refine ⟨by decide, ?_, ?_⟩
  · exact (C8_timeseries ⟨[("t", ColData.dt tsTwoDays)]⟩ ⟨none⟩ "t" tsTwoDays []
      (by decide)).1
  · have h := (C8_timeseries ⟨[("t", ColData.dt tsTwoDays)]⟩ ⟨none⟩ "t" tsTwoDays []
      (by decide)).2.2 (by decide)
    rw [h]
    decide

/-! ### Orchestration Loop claim -/

/-- C9: the claim describes two critic-driven retries ending Accepted with
`exec_ok = true`; the code cannot perform them.  Processing the first plan
item reads the function-local `retry_count` (main.py:217, the
`save_execution_result` keyword argument) before its first assignment
(main.py:224), so every run with at least one plan item raises
`UnboundLocalError` there and aborts as a top-level run failure before the
retry loop is ever entered — in particular under the claim's scenario
(first execution fails; the Critic would answer fix, fix, ok).  No retry is
performed and no Accepted result exists. -/
theorem C9_retry_loop_unreachable (o : Orchestra)
    (_h1 : (o.execF (o.coder 0)).exec_ok = false)
    (_h2 : (o.critic 0).status = "fix")
    (_h3 : (o.critic 1).status = "fix")
    (_h4 : (o.critic 2).status = "ok") :
    processFirstItem o =
      .error "UnboundLocalError: local variable 'retry_count' referenced before assignment" :=
  rfl

/-- Witness for C9: a concrete coder/executor/critic realizing the claim's
scenario. -/
theorem C9_witness :
    ((Orchestra.mk (fun _ => "x = 1")
        (fun _ => ⟨false, "ValueError: boom"⟩)
        (fun i => if i < 2 then ⟨"fix", some "y = 2"⟩ else ⟨"ok", none⟩)
        true id).execF
      ((Orchestra.mk (fun _ => "x = 1")
        (fun _ => ⟨false, "ValueError: boom"⟩)
        (fun i => if i < 2 then ⟨"fix", some "y = 2"⟩ else ⟨"ok", none⟩)
        true id).coder 0)).exec_ok = false ∧
    processFirstItem (Orchestra.mk (fun _ => "x = 1")
        (fun _ => ⟨false, "ValueError: boom"⟩)
        (fun i => if i < 2 then ⟨"fix", some "y = 2"⟩ else ⟨"ok", none⟩)
        true id) =
      .error "UnboundLocalError: local variable 'retry_count' referenced before assignment" :=
  ⟨rfl, C9_retry_loop_unreachable _ rfl rfl rfl rfl⟩

end EDA
